import Mathlib

/-!
Shallow embedding of the birdnest monitoring dashboard (src/app.py):
the geofence distance calculator, the classification of drone records
into violation categories, the query statement factory, and the
TTL-bounded query cache, together with theorems settling the frozen
claims about them.
-/

namespace Birdnest

/-- Process-wide constant CENTER_X of src/app.py line 28. -/
def CENTER_X : ℝ := 250000

/-- Process-wide constant CENTER_Y of src/app.py line 29. -/
def CENTER_Y : ℝ := 250000

/-- Process-wide constant RADIUS of src/app.py line 30. -/
def RADIUS : ℝ := 100000

/-- Embedding of distance_from_nest_in_meter (src/app.py lines 160-167):
positions come in meters scaled by 1000, so the Euclidean distance from
the nest center is divided by 1000 to obtain meters. -/
noncomputable def distance_from_nest_in_meter (x y : ℝ) : ℝ :=
  Real.sqrt ((x - CENTER_X) ^ 2 + (y - CENTER_Y) ^ 2) / 1000

/-- The geofence distance exactly as the specification words it, for
comparison with the embedded source function: sqrt of squared offsets
from the fixed center (250000, 250000), divided by the scale factor
1000. -/
noncomputable def specGeofenceDistance (x y : ℝ) : ℝ :=
  Real.sqrt ((x - 250000) ^ 2 + (y - 250000) ^ 2) / 1000

/-- C2: for every planar position (x, y) in the backing store's native
scale, the geofence distance equals sqrt((x - center_x)^2 +
(y - center_y)^2) / 1000 with center (250000, 250000), which is the
Euclidean distance in the plane from the NDZ center divided by the
scale factor 1000. -/
theorem distance_is_scaled_euclidean (x y : ℝ) :
    distance_from_nest_in_meter x y = specGeofenceDistance x y ∧
    distance_from_nest_in_meter x y =
      dist (Complex.mk x y) (Complex.mk CENTER_X CENTER_Y) / 1000 := by
  constructor
  · rfl
  · rw [Complex.dist_eq_re_im]
    rfl

/-- C8: the geofence distance at the NDZ center is zero, and the
distance is invariant under reflection of the position about the
center. -/
theorem distance_center_zero_and_reflection (x y : ℝ) :
    distance_from_nest_in_meter CENTER_X CENTER_Y = 0 ∧
    distance_from_nest_in_meter (2 * CENTER_X - x) (2 * CENTER_Y - y) =
      distance_from_nest_in_meter x y := by
  constructor
  · simp [distance_from_nest_in_meter]
  · unfold distance_from_nest_in_meter
    rw [show (2 * CENTER_X - x - CENTER_X) ^ 2 + (2 * CENTER_Y - y - CENTER_Y) ^ 2
        = (x - CENTER_X) ^ 2 + (y - CENTER_Y) ^ 2 by ring]

/-- Embedding of the drones relation row (src/app.py lines 68-102, the
to_dict fields). Nullable FLOAT columns become Option values; the
violation flag is a boolean; the nullable unique foreign reference to a
pilot record is an optional identifier. -/
structure DroneRecord where
  serial_number : String
  manufacturer : String
  mac : String
  ipv4 : String
  ipv6 : String
  firmware : String
  position_x : Option ℝ
  position_y : Option ℝ
  altitude : Option ℝ
  is_violating_ndz : Bool
  violated_pilot_id : Option String
  created_at : Nat
  updated_at : Nat

/-- A row of the bad_drones frame (src/app.py line 210): the projection
of a drone record onto position and violation flag. -/
structure BadDroneRow where
  position_x : Option ℝ
  position_y : Option ℝ
  is_violating_ndz : Bool

/-- Embedding of bad_drones (src/app.py line 210): rows whose
violated_pilot_id is missing, keeping position and violation flag. -/
def bad_drones (drones_df : List DroneRecord) : List BadDroneRow :=
  (drones_df.filter (fun d => d.violated_pilot_id.isNone)).map
    (fun d => ⟨d.position_x, d.position_y, d.is_violating_ndz⟩)

/-- Embedding of bad_currently_violating (src/app.py line 211): the
bad rows whose violation flag is set, keeping position. -/
def bad_currently_violating (drones_df : List DroneRecord) : List (Option ℝ × Option ℝ) :=
  ((bad_drones drones_df).filter (fun r => r.is_violating_ndz)).map
    (fun r => (r.position_x, r.position_y))

/-- Embedding of bad_not_currently_violating (src/app.py line 212):
the bad rows whose violation flag is clear, keeping position. -/
def bad_not_currently_violating (drones_df : List DroneRecord) : List (Option ℝ × Option ℝ) :=
  ((bad_drones drones_df).filter (fun r => !r.is_violating_ndz)).map
    (fun r => (r.position_x, r.position_y))

/-- Embedding of good_drones (src/app.py line 213): rows whose
violated_pilot_id is present, keeping position. -/
def good_drones (drones_df : List DroneRecord) : List (Option ℝ × Option ℝ) :=
  (drones_df.filter (fun d => d.violated_pilot_id.isSome)).map
    (fun d => (d.position_x, d.position_y))

/-- The record-level category filters behind the projected frames of
src/app.py lines 210-213: the currently-violating unlinked drones are
those with no pilot link and the violation flag set. -/
def currentlyViolatingUnlinked (drones_df : List DroneRecord) : List DroneRecord :=
  drones_df.filter (fun d => d.violated_pilot_id.isNone && d.is_violating_ndz)

/-- Record-level filter for the recently-violating, not currently
violating category: no pilot link and the violation flag clear. -/
def recentlyViolatingNotCurrently (drones_df : List DroneRecord) : List DroneRecord :=
  drones_df.filter (fun d => d.violated_pilot_id.isNone && !d.is_violating_ndz)

/-- Record-level filter for the attributed category: the pilot link is
present, regardless of the violation flag. -/
def attributed (drones_df : List DroneRecord) : List DroneRecord :=
  drones_df.filter (fun d => d.violated_pilot_id.isSome)

/-- The three classification categories of section 4.2 of the spec. -/
inductive DroneCategory where
  | currently_violating_unlinked
  | recently_violating_not_currently
  | attributed_linked
  deriving DecidableEq

/-- The category a single drone record is assigned by the filters of
src/app.py lines 210-213. -/
def categoryOf (d : DroneRecord) : DroneCategory :=
  if d.violated_pilot_id.isSome then DroneCategory.attributed_linked
  else if d.is_violating_ndz then DroneCategory.currently_violating_unlinked
  else DroneCategory.recently_violating_not_currently

/-- The projection of a drone record onto its position columns, as the
frames of src/app.py lines 211-213 display it. -/
def positionOf (d : DroneRecord) : Option ℝ × Option ℝ :=
  (d.position_x, d.position_y)

lemma bad_currently_violating_eq (drones_df : List DroneRecord) :
    bad_currently_violating drones_df =
      (currentlyViolatingUnlinked drones_df).map positionOf := by
  simp [bad_currently_violating, bad_drones, currentlyViolatingUnlinked, positionOf,
    List.filter_map, List.filter_filter, List.map_map, Function.comp, Bool.and_comm]

lemma bad_not_currently_violating_eq (drones_df : List DroneRecord) :
    bad_not_currently_violating drones_df =
      (recentlyViolatingNotCurrently drones_df).map positionOf := by
  simp [bad_not_currently_violating, bad_drones, recentlyViolatingNotCurrently, positionOf,
    List.filter_map, List.filter_filter, List.map_map, Function.comp, Bool.and_comm]

lemma good_drones_eq (drones_df : List DroneRecord) :
    good_drones drones_df = (attributed drones_df).map positionOf := by
  simp [good_drones, attributed, positionOf]

lemma three_filter_length (l : List DroneRecord) :
    (currentlyViolatingUnlinked l).length + (recentlyViolatingNotCurrently l).length
      + (attributed l).length = l.length := by
  unfold currentlyViolatingUnlinked recentlyViolatingNotCurrently attributed
  induction l with
  | nil => rfl
  | cons a l ih =>
    rcases hp : a.violated_pilot_id with _ | pid <;> rcases hf : a.is_violating_ndz <;>
      simp [List.filter_cons, hp, hf] <;> omega

/-- C1: the three classification categories are pairwise disjoint and
their union is the input set: the projected frames account for every
input row exactly once, and a record is a member of a category exactly
when it is an input member satisfying that category's condition, never
two categories at once. -/
theorem classification_partition (drones_df : List DroneRecord) (d : DroneRecord) :
    (bad_currently_violating drones_df).length
        + (bad_not_currently_violating drones_df).length
        + (good_drones drones_df).length = drones_df.length ∧
    (d ∈ drones_df ↔ d ∈ currentlyViolatingUnlinked drones_df ∨
        d ∈ recentlyViolatingNotCurrently drones_df ∨ d ∈ attributed drones_df) ∧
    ¬(d ∈ currentlyViolatingUnlinked drones_df ∧ d ∈ recentlyViolatingNotCurrently drones_df) ∧
    ¬(d ∈ currentlyViolatingUnlinked drones_df ∧ d ∈ attributed drones_df) ∧
    ¬(d ∈ recentlyViolatingNotCurrently drones_df ∧ d ∈ attributed drones_df) := by
  refine ⟨?_, ?_, ?_, ?_, ?_⟩
  · rw [bad_currently_violating_eq, bad_not_currently_violating_eq, good_drones_eq]
    simp only [List.length_map]
    exact three_filter_length drones_df
  all_goals
    rcases hp : d.violated_pilot_id with _ | pid <;> rcases hf : d.is_violating_ndz <;>
      simp [currentlyViolatingUnlinked, recentlyViolatingNotCurrently, attributed,
        List.mem_filter, hp, hf]

/-- C3: a drone is in the currently-violating unlinked category exactly
when its pilot link is absent and its violation flag true; in the
recently-violating category exactly when its pilot link is absent and
its flag false; and in the attributed category exactly when its pilot
link is present, regardless of the flag; the projected frames of the
source are exactly these categories' positions. -/
theorem classification_conditions (drones_df : List DroneRecord) (d : DroneRecord) :
    (d ∈ currentlyViolatingUnlinked drones_df ↔
      d ∈ drones_df ∧ d.violated_pilot_id = none ∧ d.is_violating_ndz = true) ∧
    (d ∈ recentlyViolatingNotCurrently drones_df ↔
      d ∈ drones_df ∧ d.violated_pilot_id = none ∧ d.is_violating_ndz = false) ∧
    (d ∈ attributed drones_df ↔ d ∈ drones_df ∧ d.violated_pilot_id ≠ none) ∧
    bad_currently_violating drones_df =
      (currentlyViolatingUnlinked drones_df).map positionOf ∧
    bad_not_currently_violating drones_df =
      (recentlyViolatingNotCurrently drones_df).map positionOf ∧
    good_drones drones_df = (attributed drones_df).map positionOf := by
  refine ⟨?_, ?_, ?_, bad_currently_violating_eq drones_df,
    bad_not_currently_violating_eq drones_df, good_drones_eq drones_df⟩
  all_goals
    simp [currentlyViolatingUnlinked, recentlyViolatingNotCurrently, attributed,
      List.mem_filter, Option.isNone_iff_eq_none, Option.isSome_iff_ne_none,
      and_assoc]

/-- The per-row distance annotation of src/app.py lines 180-182: when a
source coordinate is missing the derived value is missing rather than
an error, as NaN propagates through the arithmetic of the source. -/
noncomputable def distance_from_nest_opt : Option ℝ → Option ℝ → Option ℝ
  | some x, some y => some (distance_from_nest_in_meter x y)
  | _, _ => none

/-- The distance column the refresh cycle adds to the drones frame
(src/app.py lines 180-182), one derived value per input row. -/
noncomputable def annotate_distances (drones_df : List DroneRecord) : List (Option ℝ) :=
  drones_df.map (fun d => distance_from_nest_opt d.position_x d.position_y)

lemma distance_from_nest_opt_none (a b : Option ℝ) (hab : a = none ∨ b = none) :
    distance_from_nest_opt a b = none := by
  rcases a with _ | x <;> rcases b with _ | y <;>
    simp [distance_from_nest_opt] at hab ⊢

/-- C6: a record with a missing source coordinate yields a missing
derived distance, and it does not abort the annotation of the
surrounding records: the annotation of any list around it is the
annotation of the pieces, with one derived value per input record,
while records with both coordinates present get their distances. -/
theorem missing_coordinate_soft (l1 l2 : List DroneRecord) (dm : DroneRecord)
    (hm : dm.position_x = none ∨ dm.position_y = none) :
    annotate_distances (l1 ++ dm :: l2) =
      annotate_distances l1 ++ none :: annotate_distances l2 ∧
    (annotate_distances (l1 ++ dm :: l2)).length = l1.length + 1 + l2.length ∧
    ∀ x y : ℝ, distance_from_nest_opt (some x) (some y) =
      some (distance_from_nest_in_meter x y) := by
  refine ⟨?_, ?_, fun x y => rfl⟩
  · unfold annotate_distances
    rw [List.map_append, List.map_cons, distance_from_nest_opt_none _ _ hm]
  · simp [annotate_distances]
    omega

/-- Concrete drone record D1 of the spec's scenario: at the nest
center, currently violating, no pilot link. -/
def droneD1 : DroneRecord :=
  ⟨"D1", "", "", "", "", "", some 250000, some 250000, some 0, true, none, 0, 0⟩

/-- Concrete drone record D2 of the spec's scenario: 100000 native
units east of the center, not currently violating, linked to P1. -/
def droneD2 : DroneRecord :=
  ⟨"D2", "", "", "", "", "", some 350000, some 250000, some 0, false, some "P1", 0, 0⟩

/-- Concrete drone record with a missing x coordinate, for the
missing-coordinate witness. -/
def droneMissingX : DroneRecord :=
  ⟨"D3", "", "", "", "", "", none, some 100, some 0, true, none, 0, 0⟩

theorem missing_coordinate_soft_witness :
    annotate_distances ([droneD1] ++ droneMissingX :: [droneD2]) =
      annotate_distances [droneD1] ++ none :: annotate_distances [droneD2] ∧
    (annotate_distances ([droneD1] ++ droneMissingX :: [droneD2])).length = 1 + 1 + 1 ∧
    (∀ x y : ℝ, distance_from_nest_opt (some x) (some y) =
      some (distance_from_nest_in_meter x y)) :=
  missing_coordinate_soft [droneD1] [droneD2] droneMissingX (Or.inl rfl)

/-- C7: drone D1 at the center has distance 0 and is classified
currently violating unlinked; drone D2 at (350000, 250000) has
distance 100 meters and is classified attributed. -/
theorem scenario_d1_d2 :
    distance_from_nest_in_meter 250000 250000 = 0 ∧
    distance_from_nest_in_meter 350000 250000 = 100 ∧
    categoryOf droneD1 = DroneCategory.currently_violating_unlinked ∧
    categoryOf droneD2 = DroneCategory.attributed_linked ∧
    currentlyViolatingUnlinked [droneD1, droneD2] = [droneD1] ∧
    attributed [droneD1, droneD2] = [droneD2] ∧
    bad_currently_violating [droneD1, droneD2] = [(some 250000, some 250000)] ∧
    good_drones [droneD1, droneD2] = [(some 350000, some 250000)] := by
  refine ⟨?_, ?_, rfl, rfl, rfl, rfl, rfl, rfl⟩
  · unfold distance_from_nest_in_meter CENTER_X CENTER_Y
    rw [show ((250000 : ℝ) - 250000) ^ 2 + ((250000 : ℝ) - 250000) ^ 2 = 0 by norm_num,
      Real.sqrt_zero]
    norm_num
  · unfold distance_from_nest_in_meter CENTER_X CENTER_Y
    rw [show ((350000 : ℝ) - 250000) ^ 2 + ((250000 : ℝ) - 250000) ^ 2 = 100000 ^ 2 by
        norm_num,
      Real.sqrt_sq (by norm_num : (0 : ℝ) ≤ 100000)]
    norm_num

/-- C10: the category assigned to a drone depends only on its pilot
link and violation flag; membership in a record-level category is
exactly input membership plus the assigned category; and a drone whose
position is strictly outside the NDZ circle but whose stored flag is
true is still classified currently violating unlinked. -/
theorem classification_ignores_position (d1 d2 : DroneRecord)
    (hp : d1.violated_pilot_id = d2.violated_pilot_id)
    (hf : d1.is_violating_ndz = d2.is_violating_ndz) :
    categoryOf d1 = categoryOf d2 ∧
    (∀ drones_df : List DroneRecord,
      (d1 ∈ currentlyViolatingUnlinked drones_df ↔
        d1 ∈ drones_df ∧ categoryOf d1 = DroneCategory.currently_violating_unlinked) ∧
      (d1 ∈ recentlyViolatingNotCurrently drones_df ↔
        d1 ∈ drones_df ∧ categoryOf d1 = DroneCategory.recently_violating_not_currently) ∧
      (d1 ∈ attributed drones_df ↔
        d1 ∈ drones_df ∧ categoryOf d1 = DroneCategory.attributed_linked)) ∧
    (∀ x y : ℝ, d1.position_x = some x → d1.position_y = some y →
      RADIUS / 1000 < distance_from_nest_in_meter x y →
      d1.violated_pilot_id = none → d1.is_violating_ndz = true →
      categoryOf d1 = DroneCategory.currently_violating_unlinked) := by
  refine ⟨?_, ?_, ?_⟩
  · unfold categoryOf
    rw [hp, hf]
  · intro drones_df
    rcases hpv : d1.violated_pilot_id with _ | pid <;> rcases hfv : d1.is_violating_ndz <;>
      simp [currentlyViolatingUnlinked, recentlyViolatingNotCurrently, attributed,
        categoryOf, List.mem_filter, hpv, hfv]
  · intro x y _ _ _ hpn hfn
    simp [categoryOf, hpn, hfn]

/-- Witness record far outside the NDZ circle with the violation flag
set and no pilot link. -/
def droneFarFlagged : DroneRecord :=
  ⟨"W1", "", "", "", "", "", some 400000, some 250000, some 0, true, none, 0, 0⟩

/-- Witness record near the center with the violation flag set and no
pilot link, differing from the far one only in position and identity. -/
def droneNearFlagged : DroneRecord :=
  ⟨"W2", "", "", "", "", "", some 250100, some 250000, some 0, true, none, 0, 0⟩

theorem classification_ignores_position_witness :
    categoryOf droneFarFlagged = categoryOf droneNearFlagged ∧
    (∀ drones_df : List DroneRecord,
      (droneFarFlagged ∈ currentlyViolatingUnlinked drones_df ↔
        droneFarFlagged ∈ drones_df ∧
          categoryOf droneFarFlagged = DroneCategory.currently_violating_unlinked) ∧
      (droneFarFlagged ∈ recentlyViolatingNotCurrently drones_df ↔
        droneFarFlagged ∈ drones_df ∧
          categoryOf droneFarFlagged = DroneCategory.recently_violating_not_currently) ∧
      (droneFarFlagged ∈ attributed drones_df ↔
        droneFarFlagged ∈ drones_df ∧
          categoryOf droneFarFlagged = DroneCategory.attributed_linked)) ∧
    (∀ x y : ℝ, droneFarFlagged.position_x = some x →
      droneFarFlagged.position_y = some y →
      RADIUS / 1000 < distance_from_nest_in_meter x y →
      droneFarFlagged.violated_pilot_id = none →
      droneFarFlagged.is_violating_ndz = true →
      categoryOf droneFarFlagged = DroneCategory.currently_violating_unlinked) :=
  classification_ignores_position droneFarFlagged droneNearFlagged rfl rfl

/-- The error the query layer raises for an unrecognized query kind
(src/app.py line 127). -/
inductive QueryError where
  | invalidQueryKind
  deriving DecidableEq

/-- The two select statements the factory can build (src/app.py lines
124 and 126). -/
inductive Stmt where
  | selectDrones
  | selectPilots
  deriving DecidableEq

/-- Value of the Query.DRONES enum member (src/app.py line 34). -/
def DRONES : String := "drones"

/-- Value of the Query.PILOTS enum member (src/app.py line 35). -/
def PILOTS : String := "pilots"

/-- Embedding of string_to_stmt_factory (src/app.py lines 122-127):
the two recognized query kinds map to their select statements, and
anything else is an invalid-query error. -/
def string_to_stmt_factory (q : String) : Except QueryError Stmt :=
  if q = DRONES then Except.ok Stmt.selectDrones
  else if q = PILOTS then Except.ok Stmt.selectPilots
  else Except.error QueryError.invalidQueryKind

/-- Cache time-to-live of run_query (src/app.py line 132), in time
units. -/
def TTL : Nat := 10

/-- A cache entry per query kind: the snapshot and the time of its
capture. -/
def CacheMap (α : Type) : Type := String → Option (α × Nat)

/-- What one fetch produces: the result (a snapshot and its capture
time, or an error), the cache state after the call, and the number of
backing-store reads the call performed. -/
structure FetchOut (α : Type) where
  result : Except QueryError (α × Nat)
  state : CacheMap α
  reads : Nat

/-- Modelled from the spec: the framework-managed memoization of
run_query (src/app.py lines 130-145, the memo decorator with ttl 10)
is not code of this repository, so the cache is the explicit mapping
from query kind to snapshot and capture time the spec describes, with
freshness (now - captured_at < TTL) checked at each access: a fresh
entry is returned without a backing-store read, otherwise the backing
store is read and the entry replaced; an unrecognized kind fails
before anything is read or stored. -/
def fetch {α : Type} (backing : String → Nat → α) (st : CacheMap α)
    (q : String) (now : Nat) : FetchOut α :=
  match string_to_stmt_factory q with
  | Except.error e => ⟨Except.error e, st, 0⟩
  | Except.ok _ =>
    match st q with
    | some (snap, t0) =>
      if now - t0 < TTL then ⟨Except.ok (snap, t0), st, 0⟩
      else ⟨Except.ok (backing q now, now),
        fun k => if k = q then some (backing q now, now) else st k, 1⟩
    | none => ⟨Except.ok (backing q now, now),
        fun k => if k = q then some (backing q now, now) else st k, 1⟩

/-- C4: a fetch while the stored snapshot is younger than the TTL
returns the stored snapshot unchanged with no backing-store read; a
fetch after the TTL has elapsed reads the backing store afresh and
replaces the entry; a first fetch on an absent entry reads once; and
two fetches within the TTL window return the same snapshot with
exactly one backing-store read between them. -/
theorem cache_ttl_fetch (α : Type) (backing : String → Nat → α)
    (st st0 : CacheMap α) (q : String) (s : Stmt) (snap : α) (t0 now t1 t2 : Nat)
    (hq : string_to_stmt_factory q = Except.ok s)
    (hentry : st q = some (snap, t0)) (hnone : st0 q = none) :
    (now - t0 < TTL →
      (fetch backing st q now).result = Except.ok (snap, t0) ∧
      (fetch backing st q now).reads = 0 ∧
      (fetch backing st q now).state = st) ∧
    (TTL ≤ now - t0 →
      (fetch backing st q now).result = Except.ok (backing q now, now) ∧
      (fetch backing st q now).reads = 1 ∧
      (fetch backing st q now).state q = some (backing q now, now)) ∧
    (fetch backing st0 q t1).reads = 1 ∧
    (t2 - t1 < TTL →
      (fetch backing (fetch backing st0 q t1).state q t2).result =
        Except.ok (backing q t1, t1) ∧
      (fetch backing (fetch backing st0 q t1).state q t2).reads = 0) := by
  have hfirst : fetch backing st0 q t1 =
      ⟨Except.ok (backing q t1, t1),
        fun k => if k = q then some (backing q t1, t1) else st0 k, 1⟩ := by
    simp [fetch, hq, hnone]
  refine ⟨fun hlt => ?_, fun hge => ?_, ?_, fun hlt2 => ?_⟩
  · simp [fetch, hq, hentry, hlt]
  · simp [fetch, hq, hentry, Nat.not_lt.mpr hge]
  · rw [hfirst]
  · rw [hfirst]
    simp [fetch, hq, hlt2]

/-- Concrete backing store for the cache witnesses: the snapshot read
for any kind is the read time itself, so distinct reads are visible. -/
def natBacking : String → Nat → Nat := fun _ t => t

/-- Concrete cache state holding snapshot 7 captured at time 0 for
every kind. -/
def stSeven : CacheMap Nat := fun _ => some (7, 0)

/-- Concrete empty cache state. -/
def stEmpty : CacheMap Nat := fun _ => none

theorem cache_ttl_fetch_witness :
    ((5 : Nat) - 0 < TTL →
      (fetch natBacking stSeven DRONES 5).result = Except.ok (7, 0) ∧
      (fetch natBacking stSeven DRONES 5).reads = 0 ∧
      (fetch natBacking stSeven DRONES 5).state = stSeven) ∧
    (TTL ≤ 5 - 0 →
      (fetch natBacking stSeven DRONES 5).result = Except.ok (5, 5) ∧
      (fetch natBacking stSeven DRONES 5).reads = 1 ∧
      (fetch natBacking stSeven DRONES 5).state DRONES = some (5, 5)) ∧
    (fetch natBacking stEmpty DRONES 20).reads = 1 ∧
    ((22 : Nat) - 20 < TTL →
      (fetch natBacking (fetch natBacking stEmpty DRONES 20).state DRONES 22).result =
        Except.ok (20, 20) ∧
      (fetch natBacking (fetch natBacking stEmpty DRONES 20).state DRONES 22).reads = 0) :=
  cache_ttl_fetch Nat natBacking stSeven stEmpty DRONES Stmt.selectDrones 7 0 5 20 22
    rfl rfl rfl

/-- C5: a fetch with a query kind other than the two recognized kinds
fails with the invalid-query-kind error, performs no backing-store
read, and leaves every existing cache entry unaltered. -/
theorem invalid_query_kind_rejected (α : Type) (backing : String → Nat → α)
    (st : CacheMap α) (q : String) (now : Nat)
    (h1 : q ≠ DRONES) (h2 : q ≠ PILOTS) :
    string_to_stmt_factory q = Except.error QueryError.invalidQueryKind ∧
    (fetch backing st q now).result = Except.error QueryError.invalidQueryKind ∧
    (fetch backing st q now).state = st ∧
    (fetch backing st q now).reads = 0 := by
  have hfac : string_to_stmt_factory q = Except.error QueryError.invalidQueryKind := by
    simp [string_to_stmt_factory, h1, h2]
  exact ⟨hfac, by simp [fetch, hfac], by simp [fetch, hfac], by simp [fetch, hfac]⟩

theorem invalid_query_kind_rejected_witness :
    string_to_stmt_factory "cats" = Except.error QueryError.invalidQueryKind ∧
    (fetch natBacking stSeven "cats" 3).result =
      Except.error QueryError.invalidQueryKind ∧
    (fetch natBacking stSeven "cats" 3).state = stSeven ∧
    (fetch natBacking stSeven "cats" 3).reads = 0 :=
  invalid_query_kind_rejected Nat natBacking stSeven "cats" 3
    (by decide) (by decide)

/-- First fetch of the timestamp scenario: empty cache, time 0. -/
def scenarioFetch1 : FetchOut Nat := fetch natBacking stEmpty DRONES 0

/-- Second fetch of the timestamp scenario, 2 time units after the
first. -/
def scenarioFetch2 : FetchOut Nat := fetch natBacking scenarioFetch1.state DRONES 2

/-- Third fetch of the timestamp scenario, 9 time units after the
first. -/
def scenarioFetch3 : FetchOut Nat := fetch natBacking scenarioFetch2.state DRONES 9

/-- C9 counterexample: with TTL 10, a third fetch made 9 time units
after the first is still within the TTL window, so it returns the
snapshot captured at time 0 with the same capture timestamp as the
first two fetches, not a new one. -/
theorem third_fetch_nine_units_keeps_timestamp :
    scenarioFetch1.result = Except.ok (0, 0) ∧
    scenarioFetch2.result = Except.ok (0, 0) ∧
    scenarioFetch3.result = Except.ok (0, 0) ∧
    scenarioFetch3.result = scenarioFetch1.result :=
  ⟨rfl, rfl, rfl, rfl⟩

/-- C9 as amended: two fetches of the same kind 2 time units apart
return snapshots with the identical capture timestamp, and a third
fetch 10 time units after the first, the TTL having elapsed, returns a
snapshot with a new capture timestamp. -/
theorem cache_timestamp_scenario (α : Type) (backing : String → Nat → α) (t : Nat) :
    (fetch backing (fun _ => none) DRONES t).result =
      Except.ok (backing DRONES t, t) ∧
    (fetch backing (fetch backing (fun _ => none) DRONES t).state
        DRONES (t + 2)).result = Except.ok (backing DRONES t, t) ∧
    (fetch backing (fetch backing (fetch backing (fun _ => none) DRONES t).state
        DRONES (t + 2)).state DRONES (t + 10)).result =
      Except.ok (backing DRONES (t + 10), t + 10) ∧
    t + 10 ≠ t := by
  have h1 : fetch backing (fun _ => none : CacheMap α) DRONES t =
      ⟨Except.ok (backing DRONES t, t),
        fun k => if k = DRONES then some (backing DRONES t, t) else none, 1⟩ := by
    simp [fetch, string_to_stmt_factory]
  have h2 : fetch backing (fetch backing (fun _ => none : CacheMap α) DRONES t).state
      DRONES (t + 2) =
      ⟨Except.ok (backing DRONES t, t),
        fun k => if k = DRONES then some (backing DRONES t, t) else none, 0⟩ := by
    rw [h1]
    simp [fetch, string_to_stmt_factory, TTL]
  refine ⟨by rw [h1], by rw [h2], ?_, by omega⟩
  rw [h2]
  simp [fetch, string_to_stmt_factory, TTL]

end Birdnest
